import Mathlib

/-!
Shallow embedding of the redraw-scheduling and frame-production pipeline of
the layershell-egui-cpu repository (src/layer_shell/mod.rs and
src/egui_state.rs), together with theorems settling the spec's claims.

Modelling conventions:
* `std::time::Instant` and `std::time::Duration` are natural numbers
  (an absolute tick count and a tick count respectively).
  `Instant::duration_since` saturates at zero, which truncated `Nat`
  subtraction models exactly.
* Input events are an opaque type parameter `E`; the egui `FullOutput`
  produced by one UI logic pass is an opaque type parameter `O`.
* The egui context's `run`, the tessellate+render pair, and the slot pool's
  backing memory are external collaborators; `draw` takes them as function
  parameters.  The repaint-request callback registered in
  `WgpuLayerShellState::new` writes `Some(Instant::now() + delay)` into the
  shared `draw_request` cell; one UI pass is therefore modelled as a function
  returning the `FullOutput` together with the final `Option` delay the
  callback wrote during the pass (`none` when the callback never fired).
* Panics (`Option::unwrap` on `None` in `State::get_size`, reached from
  `draw`) are modelled by making `draw` return an `Option`, `none` being
  the panic.
-/

/-- The egui `Rect` as the repository uses it: `State::set_size` only ever
stores `min = (0,0)` and `max = (width as f32, height as f32)` with `width`
and `height` coming from `u32`, and `get_size` reads the rect back with
`.width().ceil() as i32`.  On such integral rectangles the float round-trip
is the identity, so natural-number corners model the stored data exactly. -/
structure Rect where
  minx : Nat
  miny : Nat
  maxx : Nat
  maxy : Nat
deriving DecidableEq

def Rect.width (r : Rect) : Nat := r.maxx - r.minx

def Rect.height (r : Rect) : Nat := r.maxy - r.miny

/-- The fields of egui's `RawInput` that the repository reads or writes:
the pending event vector, the screen rectangle, the timestamp, and the
modifier state (opaque, modelled as a number). -/
structure RawInput (E : Type) where
  events : List E
  screen_rect : Option Rect
  time : Option Nat
  modifiers : Nat
deriving DecidableEq

/-- egui's `RawInput::take`: returns the accumulated input and leaves the
accumulator behind with an empty event vector and the one-shot fields
(`screen_rect`, `time`) cleared; `modifiers` persists.  First component is
the returned batch, second the state left in `self`. -/
def RawInput.take {E : Type} (i : RawInput E) : RawInput E × RawInput E :=
  ({ events := i.events, screen_rect := i.screen_rect,
     time := i.time, modifiers := i.modifiers },
   { events := [], screen_rect := none, time := none,
     modifiers := i.modifiers })

/-- `egui_state::State` (src/egui_state.rs): the context, renderer and
start time are external collaborators; the state the claims concern is the
raw-input accumulator and the optional stored size. -/
structure State (E : Type) where
  input : RawInput E
  size : Option Rect
deriving DecidableEq

/-- `State::new`: no size stored yet, empty input. -/
def State.new (E : Type) : State E :=
  { input := { events := [], screen_rect := none, time := none, modifiers := 0 },
    size := none }

/-- `State::set_size` (src/egui_state.rs lines 45-56): builds the rect with
min (0,0) and max (width, height), stores it in `self.size` and in
`self.input.screen_rect`. -/
def State.set_size {E : Type} (st : State E) (width height : Nat) : State E :=
  let screen_rect : Rect := { minx := 0, miny := 0, maxx := width, maxy := height }
  { st with size := some screen_rect,
            input := { st.input with screen_rect := some screen_rect } }

/-- `State::get_size` (src/egui_state.rs lines 58-62): reads the stored
size back as `(width, height)`.  The source calls `.unwrap()` on
`self.size`; the panic on `None` is modelled by returning `none`. -/
def State.get_size {E : Type} (st : State E) : Option (Nat × Nat) :=
  st.size.map (fun r => (r.width, r.height))

/-- `State::push_event` (src/egui_state.rs lines 76-78): appends one event
to the pending vector. -/
def State.push_event {E : Type} (st : State E) (e : E) : State E :=
  { st with input := { st.input with events := st.input.events ++ [e] } }

/-- The input-handoff part of `State::process_events`
(src/egui_state.rs lines 80-89): sets `input.time` to the elapsed time and
takes the raw input.  Returns the taken batch and the new state; the
`context.run` call on the taken batch is applied by the caller (`draw`). -/
def State.process_events {E : Type} (st : State E) (now : Nat) :
    RawInput E × State E :=
  let i1 := { st.input with time := some now }
  let taken := i1.take
  (taken.1, { st with input := taken.2 })

/-- `WgpuLayerShellState` (src/layer_shell/mod.rs): the fields the claims
concern.  The wayland handles, seat/pointer/keyboard and the slot pool are
external collaborators. -/
structure WgpuLayerShellState (E : Type) where
  has_frame_callback : Bool
  is_configured : Bool
  exit : Bool
  egui_state : State E
  draw_request : Option Nat
deriving DecidableEq

/-- `WgpuLayerShellState::should_draw` (src/layer_shell/mod.rs
lines 151-164), with `Instant::now()` passed in as `now`. -/
def WgpuLayerShellState.should_draw {E : Type}
    (s : WgpuLayerShellState E) (now : Nat) : Bool :=
  if !s.has_frame_callback then
    false
  else if !s.egui_state.input.events.isEmpty then
    true
  else
    match s.draw_request with
    | some time => decide (time ≤ now)
    | none => false

/-- `WgpuLayerShellState::get_timeout` (src/layer_shell/mod.rs
lines 166-177).  `instant.duration_since(Instant::now())` saturates to the
zero duration when the instant is already past, exactly as truncated `Nat`
subtraction does. -/
def WgpuLayerShellState.get_timeout {E : Type}
    (s : WgpuLayerShellState E) (now : Nat) : Option Nat :=
  match s.draw_request with
  | some instant =>
      if s.has_frame_callback then some (instant - now) else none
  | none => none

/-- The `LayerShellHandler::configure` handler (src/layer_shell/mod.rs
lines 317-338), with `Instant::now()` passed in as `now`. -/
def WgpuLayerShellState.configure {E : Type}
    (s : WgpuLayerShellState E) (now width height : Nat) :
    WgpuLayerShellState E :=
  let s1 :=
    if !s.is_configured then
      { s with is_configured := true, has_frame_callback := true,
               draw_request := some now }
    else s
  { s1 with egui_state := s1.egui_state.set_size width height }

/-- The `CompositorHandler::frame` handler (src/layer_shell/mod.rs
lines 282-290). -/
def WgpuLayerShellState.frame_complete {E : Type}
    (s : WgpuLayerShellState E) : WgpuLayerShellState E :=
  { s with has_frame_callback := true }

/-- One observable call issued by `draw` towards the buffer pool, the
rasterizer and the surface-presentation collaborator, in source order. -/
inductive DrawAction where
  | createBuffer (width height stride : Nat)
  | attachBuffer
  | fillZero
  | raster
  | damageBuffer (x y width height : Nat)
  | setSurfaceSize (width height : Nat)
  | requestFrameCallback
  | commit
deriving DecidableEq

def DrawAction.isAttach : DrawAction → Bool
  | .attachBuffer => true
  | _ => false

def DrawAction.isRaster : DrawAction → Bool
  | .raster => true
  | _ => false

def DrawAction.isDamage : DrawAction → Bool
  | .damageBuffer _ _ _ _ => true
  | _ => false

def DrawAction.isSetSize : DrawAction → Bool
  | .setSurfaceSize _ _ => true
  | _ => false

def DrawAction.isFrameRequest : DrawAction → Bool
  | .requestFrameCallback => true
  | _ => false

def DrawAction.isCommit : DrawAction → Bool
  | .commit => true
  | _ => false

/-- Result of one successful `draw` call: the post-call state, the trace of
collaborator calls in the order the source issues them, the buffer
geometry requested from the pool, the buffer contents just before the
rasterizer runs, the buffer contents after it, and the UI pass output. -/
structure DrawResult (E O : Type) where
  state : WgpuLayerShellState E
  actions : List DrawAction
  bufferWidth : Nat
  bufferHeight : Nat
  bufferStride : Nat
  preRasterBytes : List Nat
  finalBytes : List Nat
  output : O

/-- `WgpuLayerShellState::draw` (src/layer_shell/mod.rs lines 179-220).
`app` is one UI logic pass (`context.run` with the application's update
closure): it returns the `FullOutput` and the final value the registered
repaint callback wrote during the pass (`none` when it never fired; the
callback writes `Some(Instant::now() + delay)`).  `render` is the
tessellate-plus-rasterize collaborator of `State::draw`
(src/egui_state.rs lines 91-115), taking the output, the buffer width and
height, and the buffer bytes.  `poolBytes n` is the stale content of the
`n`-byte canvas `SlotPool::create_buffer` hands back; `canvas.fill(0)`
overwrites every one of its bytes.  Returns `none` when
`State::get_size` panics (no configure has stored a size yet). -/
def WgpuLayerShellState.draw {E O : Type}
    (s : WgpuLayerShellState E) (now : Nat)
    (app : RawInput E → O × Option Nat)
    (render : O → Nat → Nat → List Nat → List Nat)
    (poolBytes : Nat → List Nat) :
    Option (DrawResult E O) :=
  let s1 : WgpuLayerShellState E :=
    { s with draw_request := none, has_frame_callback := false }
  let pe := s1.egui_state.process_events now
  let full_output := (app pe.1).1
  let repaint := (app pe.1).2
  let s2 : WgpuLayerShellState E :=
    { s1 with egui_state := pe.2,
              draw_request := repaint.map (fun d => now + d) }
  match s2.egui_state.get_size with
  | none => none
  | some wh =>
      let w := wh.1
      let h := wh.2
      let canvas0 := poolBytes (w * 4 * h)
      let canvas1 := canvas0.map (fun _ => 0)
      let canvas2 := render full_output w h canvas1
      some {
        state := s2
        actions := [DrawAction.createBuffer w h (w * 4), DrawAction.attachBuffer,
          DrawAction.fillZero, DrawAction.raster,
          DrawAction.damageBuffer 0 0 w h, DrawAction.setSurfaceSize w h,
          DrawAction.requestFrameCallback, DrawAction.commit]
        bufferWidth := w
        bufferHeight := h
        bufferStride := w * 4
        preRasterBytes := canvas1
        finalBytes := canvas2
        output := full_output }

/-! ## Spec-side definitions (written from the spec's words, for the
refinement claims that compare code behaviour to the spec's formulas) -/

/-- Spec 4.2 `is_due(now)`: true iff the scheduler is `Pending(t)` with
`t <= now`. -/
def repaintIsDue (req : Option Nat) (now : Nat) : Bool :=
  match req with
  | some t => decide (t ≤ now)
  | none => false

/-- Spec 4.2 `timeout_until(now)`: `none` when `Idle` or when frame
permission is false, otherwise `some (max 0 (t - now))` computed over the
integers. -/
def timeoutSpec (permission : Bool) (req : Option Nat) (now : Nat) :
    Option Nat :=
  if permission then
    req.map (fun t => (max 0 ((t : Int) - (now : Int))).toNat)
  else
    none

/-! ## Claim theorems -/

/-- C1: for every state and every current time, `should_draw` returns true
iff frame permission (`has_frame_callback`) holds AND (the pending input
batch is non-empty OR the repaint request holds a time that is due); in
particular it is false whenever permission is false. -/
theorem should_draw_spec {E : Type} (s : WgpuLayerShellState E) (now : Nat) :
    s.should_draw now =
      (s.has_frame_callback &&
        (!s.egui_state.input.events.isEmpty ||
          repaintIsDue s.draw_request now)) := by
  unfold WgpuLayerShellState.should_draw repaintIsDue
  cases s.has_frame_callback <;>
    cases h : s.egui_state.input.events.isEmpty <;>
      cases s.draw_request <;> simp [h]

/-- C3: for every state and every current time, `get_timeout` returns
`none` when the repaint request is `Idle` or frame permission is false,
and otherwise `some (max 0 (t - now))` — never a negative duration. -/
theorem get_timeout_spec {E : Type} (s : WgpuLayerShellState E) (now : Nat) :
    s.get_timeout now = timeoutSpec s.has_frame_callback s.draw_request now := by
  unfold WgpuLayerShellState.get_timeout timeoutSpec
  cases s.draw_request with
  | none => cases s.has_frame_callback <;> simp
  | some t =>
      cases s.has_frame_callback <;> simp
      omega

/-- C8: every `configure` updates the screen geometry via `set_size`; the
first configure additionally sets frame permission and schedules a repaint
at `now`; subsequent configures leave permission and the repaint request
unchanged.  Pending input is untouched either way. -/
theorem configure_spec {E : Type} (s : WgpuLayerShellState E)
    (now width height : Nat) :
    (s.configure now width height).egui_state.size =
        some { minx := 0, miny := 0, maxx := width, maxy := height } ∧
    (s.configure now width height).egui_state.input.screen_rect =
        some { minx := 0, miny := 0, maxx := width, maxy := height } ∧
    (s.configure now width height).egui_state.input.events =
        s.egui_state.input.events ∧
    (s.configure now width height).is_configured = true ∧
    (s.configure now width height).has_frame_callback =
        (if s.is_configured then s.has_frame_callback else true) ∧
    (s.configure now width height).draw_request =
        (if s.is_configured then s.draw_request else some now) := by
  cases h : s.is_configured <;>
    simp [WgpuLayerShellState.configure, State.set_size, h]

/-- C9: `set_size` overwrites the screen rectangle with origin (0,0) and
extent width×height, and leaves the pending input events unchanged. -/
theorem set_size_spec {E : Type} (st : State E) (width height : Nat) :
    (st.set_size width height).size =
        some { minx := 0, miny := 0, maxx := width, maxy := height } ∧
    (st.set_size width height).input.screen_rect =
        some { minx := 0, miny := 0, maxx := width, maxy := height } ∧
    (st.set_size width height).input.events = st.input.events := by
  exact ⟨rfl, rfl, rfl⟩

/-- Folding `push_event` over a list appends the list to the pending
events, in order. -/
theorem foldl_push_event_events {E : Type} (es : List E) (st : State E) :
    (es.foldl State.push_event st).input.events = st.input.events ++ es := by
  induction es generalizing st with
  | nil => simp
  | cons e es ih =>
      simp only [List.foldl_cons, ih, State.push_event]
      simp

/-- C7: after any sequence of pushes starting from an empty accumulator,
the take performed by `process_events` returns exactly the pushed events in
push order and leaves the accumulator empty; a second take with no
intervening push returns an empty batch. -/
theorem process_events_take_spec {E : Type} (st : State E) (es : List E)
    (t1 t2 : Nat) (h : st.input.events = []) :
    ((es.foldl State.push_event st).process_events t1).1.events = es ∧
    ((es.foldl State.push_event st).process_events t1).2.input.events = [] ∧
    ((((es.foldl State.push_event st).process_events t1).2).process_events
        t2).1.events = [] := by
  refine ⟨?_, ?_, ?_⟩ <;>
    simp [State.process_events, RawInput.take, foldl_push_event_events, h]

/-- Witness for C7 at a concrete push sequence. -/
theorem process_events_take_spec_witness :
    (([1, 2, 3].foldl State.push_event (State.new Nat)).process_events 5).1.events
        = [1, 2, 3] ∧
    (([1, 2, 3].foldl State.push_event (State.new Nat)).process_events 5).2.input.events
        = [] ∧
    (((([1, 2, 3].foldl State.push_event (State.new Nat)).process_events 5).2).process_events
        6).1.events = [] :=
  process_events_take_spec (State.new Nat) [1, 2, 3] 5 6 rfl

/-- C2: `draw` clears the repaint request and frame permission before the
UI pass; afterwards frame permission is false and the repaint request
holds exactly what the UI pass's repaint callback wrote during the call
(`none` when it never fired), independently of the request present before
the call. -/
theorem draw_clears_permission_and_request {E O : Type}
    (s : WgpuLayerShellState E) (now : Nat)
    (app : RawInput E → O × Option Nat)
    (render : O → Nat → Nat → List Nat → List Nat)
    (poolBytes : Nat → List Nat) (r : Rect)
    (h : s.egui_state.size = some r) :
    ∃ res : DrawResult E O,
      s.draw now app render poolBytes = some res ∧
      res.state.has_frame_callback = false ∧
      res.state.draw_request =
        Option.map (fun d => now + d)
          (app (s.egui_state.process_events now).1).2 := by
  obtain ⟨fc, cfg, ex, ⟨inp, sz⟩, dr⟩ := s
  cases sz with
  | none => cases h
  | some r2 => exact ⟨_, rfl, rfl, rfl⟩

/-! ## Concrete sample inputs for witnesses and counterexamples -/

/-- A configured shell state: frame permission granted, size 300×200
stored, a repaint due at instant 0, no pending events. -/
def sampleShellState : WgpuLayerShellState Nat :=
  { has_frame_callback := true, is_configured := true, exit := false,
    egui_state := (State.new Nat).set_size 300 200,
    draw_request := some 0 }

/-- A UI pass that draws nothing and never fires the repaint callback. -/
def sampleApp : RawInput Nat → Nat × Option Nat := fun _ => (0, none)

/-- A rasterizer that leaves the buffer bytes as given. -/
def sampleRender : Nat → Nat → Nat → List Nat → List Nat :=
  fun _ _ _ bytes => bytes

/-- A pool whose canvases come back filled with stale bytes (7). -/
def samplePool : Nat → List Nat := fun n => List.replicate n 7

/-- Witness for C2 at a concrete configured state. -/
theorem draw_clears_permission_and_request_witness :
    ∃ res : DrawResult Nat Nat,
      sampleShellState.draw 0 sampleApp sampleRender samplePool = some res ∧
      res.state.has_frame_callback = false ∧
      res.state.draw_request =
        Option.map (fun d => 0 + d)
          (sampleApp (sampleShellState.egui_state.process_events 0).1).2 :=
  draw_clears_permission_and_request sampleShellState 0 sampleApp
    sampleRender samplePool { minx := 0, miny := 0, maxx := 300, maxy := 200 }
    rfl

/-- The spec's required relative order of the surface-presentation calls:
each of attach, damage, set-size, frame-request, commit occurs exactly
once, and in that relative order. -/
def presentationOrdered (l : List DrawAction) : Bool :=
  (l.countP DrawAction.isAttach == 1) &&
  (l.countP DrawAction.isDamage == 1) &&
  (l.countP DrawAction.isSetSize == 1) &&
  (l.countP DrawAction.isFrameRequest == 1) &&
  (l.countP DrawAction.isCommit == 1) &&
  decide (l.findIdx DrawAction.isAttach < l.findIdx DrawAction.isDamage) &&
  decide (l.findIdx DrawAction.isDamage < l.findIdx DrawAction.isSetSize) &&
  decide (l.findIdx DrawAction.isSetSize < l.findIdx DrawAction.isFrameRequest) &&
  decide (l.findIdx DrawAction.isFrameRequest < l.findIdx DrawAction.isCommit)

/-- C5: every frame produced by `draw` issues the five presentation calls
in the order attach, damage, set-reported-size, request-next-frame-callback,
commit. -/
theorem draw_presentation_order {E O : Type}
    (s : WgpuLayerShellState E) (now : Nat)
    (app : RawInput E → O × Option Nat)
    (render : O → Nat → Nat → List Nat → List Nat)
    (poolBytes : Nat → List Nat) :
    ((s.draw now app render poolBytes).map
        (fun res => presentationOrdered res.actions)).getD true = true := by
  obtain ⟨fc, cfg, ex, ⟨inp, sz⟩, dr⟩ := s
  cases sz <;> rfl

/-- C4 counterexample: at a concrete configured state, the frame produced
by `draw` does NOT issue the rasterizer call before the attach call — the
source attaches the buffer (lines 197-199) before zero-filling and
rasterizing into it (lines 202-207), so the claimed "attach only after
rasterization completes" ordering is false. -/
theorem draw_raster_before_attach_false :
    ((sampleShellState.draw 0 sampleApp sampleRender samplePool).map
        (fun res =>
          decide (res.actions.findIdx DrawAction.isRaster <
            res.actions.findIdx DrawAction.isAttach))).getD true = false := by
  rfl

/-- C4 (amended): within one `draw` call the buffer is attached to the
surface immediately after acquisition and before rasterization; the
rasterizer finishes writing into the buffer before the damage call and
before the commit call that presents the attached content. -/
theorem draw_attach_then_raster_then_commit {E O : Type}
    (s : WgpuLayerShellState E) (now : Nat)
    (app : RawInput E → O × Option Nat)
    (render : O → Nat → Nat → List Nat → List Nat)
    (poolBytes : Nat → List Nat) :
    ((s.draw now app render poolBytes).map
        (fun res =>
          decide (res.actions.findIdx DrawAction.isAttach <
            res.actions.findIdx DrawAction.isRaster) &&
          decide (res.actions.findIdx DrawAction.isRaster <
            res.actions.findIdx DrawAction.isDamage) &&
          decide (res.actions.findIdx DrawAction.isRaster <
            res.actions.findIdx DrawAction.isCommit))).getD true = true := by
  obtain ⟨fc, cfg, ex, ⟨inp, sz⟩, dr⟩ := s
  cases sz <;> rfl

/-- C6: `draw` acquires the buffer with the width and height read from the
surface geometry just before creation, with stride `width*4`, and the
buffer handed to the rasterizer is exactly `width*height*4` zero bytes
(every stale pool byte overwritten), whatever the pool's stale contents
were. -/
theorem draw_buffer_geometry {E O : Type}
    (s : WgpuLayerShellState E) (now : Nat)
    (app : RawInput E → O × Option Nat)
    (render : O → Nat → Nat → List Nat → List Nat)
    (poolBytes : Nat → List Nat) (r : Rect)
    (h : s.egui_state.size = some r)
    (hpool : ∀ n, (poolBytes n).length = n) :
    ∃ res : DrawResult E O,
      s.draw now app render poolBytes = some res ∧
      res.bufferWidth = r.width ∧
      res.bufferHeight = r.height ∧
      res.bufferStride = r.width * 4 ∧
      res.preRasterBytes = List.replicate (r.width * r.height * 4) 0 ∧
      res.finalBytes =
        render res.output r.width r.height
          (List.replicate (r.width * r.height * 4) 0) := by
  obtain ⟨fc, cfg, ex, ⟨inp, sz⟩, dr⟩ := s
  cases sz with
  | none => cases h
  | some r2 =>
      obtain rfl : r = r2 := (Option.some_injective _ h).symm
      have hcanvas : (poolBytes (r.width * 4 * r.height)).map
            (fun _ => (0 : Nat)) =
          List.replicate (r.width * r.height * 4) 0 := by
        rw [List.map_const', hpool, Nat.mul_right_comm]
      refine ⟨_, rfl, rfl, rfl, rfl, hcanvas, ?_⟩
      exact congrArg (fun b => render _ r.width r.height b) hcanvas

/-- Witness for C6: after configure(300,200) the produced buffer is
exactly 300*200*4 = 240000 zeroed bytes with stride 1200. -/
theorem draw_buffer_geometry_witness :
    ∃ res : DrawResult Nat Nat,
      sampleShellState.draw 0 sampleApp sampleRender samplePool = some res ∧
      res.bufferWidth = 300 ∧
      res.bufferHeight = 200 ∧
      res.bufferStride = 300 * 4 ∧
      res.preRasterBytes = List.replicate (300 * 200 * 4) 0 ∧
      res.finalBytes =
        sampleRender res.output 300 200 (List.replicate (300 * 200 * 4) 0) :=
  draw_buffer_geometry sampleShellState 0 sampleApp sampleRender samplePool
    { minx := 0, miny := 0, maxx := 300, maxy := 200 } rfl
    (fun n => List.length_replicate n 7)

/-- C10: the stored size is `None` at construction and `get_size` unwraps
it, so `draw` panics exactly when no configure has stored a size; after
any `configure` the unwrap branch is unreachable. -/
theorem draw_panics_iff_no_size {E O : Type}
    (s : WgpuLayerShellState E) (now : Nat)
    (app : RawInput E → O × Option Nat)
    (render : O → Nat → Nat → List Nat → List Nat)
    (poolBytes : Nat → List Nat) :
    (State.new E).size = none ∧
    (State.new E).get_size = none ∧
    (s.draw now app render poolBytes).isNone = s.egui_state.size.isNone ∧
    ∀ t width height : Nat,
      ((s.configure t width height).draw now app render poolBytes).isSome
        = true := by
  obtain ⟨fc, cfg, ex, ⟨inp, sz⟩, dr⟩ := s
  refine ⟨rfl, rfl, ?_, ?_⟩
  · cases sz <;> rfl
  · intro t width height
    cases cfg <;> rfl
